import Mathlib

/-!
Shallow embedding of the uplink orchestration layer of `switch-api`
(`src/uplink.ts`), used to check the natural-language specification
against the code.

Conventions of the embedding:
* `BigNumber` values (arbitrary-precision decimals) are modelled as `ℚ`.
* Asynchronous effects are modelled by threading an explicit environment
  that fixes the outcome of each external call, and by returning a trace
  of the externally visible actions next to the result.
* The external `ilp-packet` codec is modelled abstractly: a byte string is
  either the encoding of a Prepare, the encoding of a Reply, or raw bytes,
  and the (de)serializers are the evident injections/projections.
* Fallible operations return `Except String`.
-/

set_option autoImplicit false

namespace SwitchApi

/-! ### Packets (`ilp-packet` data model) -/

/-- ILP Prepare packet: `{destination, amount, executionCondition, expiresAt, data}`.
The amount is a non-negative integer (of base units), the destination a
dot-separated address string. -/
structure IlpPrepare where
  destination : String
  amount : Nat
  executionCondition : List Nat
  expiresAt : Nat
  data : List Nat
  deriving DecidableEq

/-- ILP Reply: either `Fulfill{fulfillment, data}` or
`Reject{code, message, triggeredBy, data}`. -/
inductive IlpReply where
  | fulfill (fulfillment : List Nat) (data : List Nat)
  | reject (code : String) (message : String) (triggeredBy : String) (data : List Nat)
  deriving DecidableEq

/-- Abstract model of a binary payload exchanged over the transport: the
encoding of a Prepare, the encoding of a Reply, or raw bytes. -/
inductive IlpBytes where
  | prepareBytes (p : IlpPrepare)
  | replyBytes (r : IlpReply)
  | raw (bs : List Nat)
  deriving DecidableEq

/-- Abstract model of `serializeIlpPrepare` from `ilp-packet`. -/
def serializeIlpPrepare (p : IlpPrepare) : IlpBytes := .prepareBytes p

/-- Abstract model of `deserializeIlpPrepare`: succeeds exactly on encoded
Prepare packets. -/
def deserializeIlpPrepare : IlpBytes → Except String IlpPrepare
  | .prepareBytes p => .ok p
  | _ => .error "not an IlpPrepare"

/-- Abstract model of `serializeIlpReply`. -/
def serializeIlpReply (r : IlpReply) : IlpBytes := .replyBytes r

/-- Abstract model of `deserializeIlpReply`: succeeds exactly on encoded
Reply packets. -/
def deserializeIlpReply : IlpBytes → Except String IlpReply
  | .replyBytes r => .ok r
  | _ => .error "not an IlpReply"

/-- Type of the stream-server data handler slot (`DataHandler`): raw request
bytes to raw reply bytes. -/
def DataHandler : Type := IlpBytes → IlpBytes

/-- Type of the client packet handler slot (`IlpPrepareHandler`): parsed
Prepare to Reply. -/
def IlpPrepareHandler : Type := IlpPrepare → IlpReply

/-! ### JS string primitives used by the router

`setupHandlers` computes
`prepare.destination.replace(clientAddress, '').split('.').some(a => !!a)`.
JS `String.replace` with a string pattern removes only the FIRST occurrence
of the pattern, and `split('.')` splits on the dot character, keeping empty
segments (so `"".split('.') = [""]`). -/

/-- JS `s.replace(pat, '')` on character lists: remove the first occurrence
of `pat` in `s`; leave `s` unchanged when `pat` does not occur. -/
def replaceFirstAux (pat : List Char) : List Char → List Char
  | [] => []
  | c :: rest =>
    if pat.isPrefixOf (c :: rest) then (c :: rest).drop pat.length
    else c :: replaceFirstAux pat rest

/-- JS `s.split(sep)` for a one-character separator: splits on every
occurrence of `sep`, keeping empty segments; `[] ↦ [[]]`. -/
def splitOnChar (sep : Char) : List Char → List (List Char)
  | [] => [[]]
  | c :: rest =>
    let r := splitOnChar sep rest
    if c = sep then [] :: r
    else
      match r with
      | [] => [[c]]
      | seg :: segs => (c :: seg) :: segs

/-- Decides whether `pat` occurs as a contiguous substring of `s`
(JS `s.includes(pat)`); used only in statements about the router. -/
def containsSubstring (pat : List Char) : List Char → Bool
  | [] => pat.isPrefixOf ([] : List Char)
  | c :: rest => pat.isPrefixOf (c :: rest) || containsSubstring pat rest

/-! ### Packet Router (`setupHandlers`) -/

/-- Segments of the destination after stripping the client address:
`destination.replace(clientAddress, '').split('.')`. -/
def strippedSegments (clientAddress destination : String) : List (List Char) :=
  splitOnChar '.' (replaceFirstAux clientAddress.data destination.data)

/-- `hasConnectionTag` from `setupHandlers`:
`destination.replace(clientAddress, '').split('.').some(a => !!a)`. -/
def hasConnectionTag (clientAddress destination : String) : Bool :=
  (strippedSegments clientAddress destination).any (fun seg => !seg.isEmpty)

/-- The data handler that `setupHandlers` registers on the wrapper:
reject absent payloads, parse the Prepare, then route by `hasConnectionTag`
to either the stream-server handler (raw bytes in, raw bytes out) or the
client handler (parsed Prepare in, serialized Reply out). -/
def routerDataHandler (clientAddress : String) (streamServerHandler : DataHandler)
    (streamClientHandler : IlpPrepareHandler) (data : Option IlpBytes) :
    Except String IlpBytes :=
  match data with
  | none => .error "no ilp packet included"
  | some d =>
    match deserializeIlpPrepare d with
    | .error e => .error e
    | .ok prepare =>
      if hasConnectionTag clientAddress prepare.destination then
        .ok (streamServerHandler d)
      else
        .ok (serializeIlpReply (streamClientHandler prepare))

/-! ### Handler slots (`registerPacketHandler` / `deregisterPacketHandler`)

`connectUplink` keeps the two handlers in a mutable record that the
registered data handler reads at dispatch time:
`(prepare) => handlers.streamClientHandler(prepare)`. -/

/-- The mutable handler record created by `connectUplink`. -/
structure Handlers where
  streamServerHandler : DataHandler
  streamClientHandler : IlpPrepareHandler

/-- Modelled from the spec: `defaultIlpPrepareHandler` lives in
`src/utils/packet`, which is not under `src/`; the spec (§4.5) describes it
as a fixed rejecting/no-op handler. -/
def defaultIlpPrepareHandler : IlpPrepareHandler :=
  fun _ => .reject "F02" "Packet handler is not registered" "" []

/-- Modelled from the spec: `defaultDataHandler` lives in
`src/utils/packet`, which is not under `src/`; the spec (§4.5) describes it
as a fixed rejecting/no-op handler. -/
def defaultDataHandler : DataHandler :=
  fun _ => serializeIlpReply (.reject "F02" "Data handler is not registered" "" [])

/-- `registerPacketHandler`: replaces the client-handler slot. -/
def registerPacketHandler (handler : IlpPrepareHandler) (h : Handlers) : Handlers :=
  { h with streamClientHandler := handler }

/-- `deregisterPacketHandler = registerPacketHandler(defaultIlpPrepareHandler)`. -/
def deregisterPacketHandler : Handlers → Handlers :=
  registerPacketHandler defaultIlpPrepareHandler

/-- One inbound delivery through the handler registered by `setupHandlers`,
reading the handler slots at dispatch time. -/
def dispatch (clientAddress : String) (h : Handlers) (data : Option IlpBytes) :
    Except String IlpBytes :=
  routerDataHandler clientAddress h.streamServerHandler h.streamClientHandler data

/-! ### Externally visible actions

Each effectful operation is modelled as returning a trace of the actions it
performs on its collaborators, next to its result. -/

/-- Externally visible actions of the uplink layer. -/
inductive Action where
  | pluginConnect
  | pluginDisconnect
  | registerDataHandler
  | startServer
  | stopServer
  | logError
  | sendMoneyCall (amount : ℚ)
  | settlementTransfer (amount : ℚ)
  | sendData (bytes : IlpBytes)
  deriving DecidableEq

/-! ### Non-custodial send protocol (`sendPacket`) -/

/-- Environment fixing the external outcomes seen by one `sendPacket` call:
the wrapper's payable balance read at the start of the call
(`pluginWrapper.payableBalance$.value`), the transport's response to
`sendData`, and the outcome of the settlement push (`sendMoney`). -/
structure SendEnv where
  payableBalance : ℚ
  sendDataResult : IlpBytes → Except String IlpBytes
  sendMoneyResult : Except String Unit

/-- Modelled from the spec: the Accounting Wrapper's `sendMoney` lives in
`utils/middlewares`, which is not under `src/`; per the spec contract (§4.4)
a requested amount ≤ 0 is a no-op, a positive amount performs a settlement
transfer, and a failure of the transfer is caught and logged at the call
site (`.catch(err => log.error(...))`). Returns the trace of the push. -/
def sendMoney (amount : ℚ) (result : Except String Unit) : List Action :=
  if amount ≤ 0 then []
  else
    match result with
    | .ok _ => [.settlementTransfer amount]
    | .error _ => [.logError]

/-- `sendPacket`: read the payable balance, compute
`additionalPrefundRequired = payableBalance − prepare.amount`, fire and
forget `sendMoney(additionalPrefundRequired)` (failures caught and logged),
and independently serialize and transmit the Prepare, deserializing the
returned Reply. The returned promise is the transmission pipeline only. -/
def sendPacket (env : SendEnv) (prepare : IlpPrepare) :
    List Action × Except String IlpReply :=
  let additionalPrefundRequired : ℚ := env.payableBalance - (prepare.amount : ℚ)
  let settleTrace :=
    Action.sendMoneyCall additionalPrefundRequired ::
      sendMoney additionalPrefundRequired env.sendMoneyResult
  let sentBytes := serializeIlpPrepare prepare
  (settleTrace ++ [Action.sendData sentBytes],
   (env.sendDataResult sentBytes).bind deserializeIlpReply)

/-! ### Balance & capacity tracker

`connectUplink` wires `combineLatest(outgoingCapacity$, totalReceived$)`
through `sumAll` into `balance$`. Both sources are `BehaviorSubject`s, so
the combination emits once immediately and then on every emission of either
source, each time applying `sumAll` to the pair of latest values. -/

/-- One emission of either source observable. -/
inductive CapacityEvent where
  | outgoingCapacity (v : ℚ)
  | totalReceived (v : ℚ)
  deriving DecidableEq

/-- `combineLatest` state update: the pair of latest values `(outgoing,
received)` after one source emission. -/
def applyEvent (st : ℚ × ℚ) : CapacityEvent → ℚ × ℚ
  | .outgoingCapacity v => (v, st.2)
  | .totalReceived v => (st.1, v)

/-- The pair of latest values after a list of source emissions, starting
from the sources' initial values. -/
def latestPair (o0 r0 : ℚ) (events : List CapacityEvent) : ℚ × ℚ :=
  events.foldl applyEvent (o0, r0)

/-- `sumAll = map(values => values.reduce((a, b) => a.plus(b)))`: JS
`reduce` with no initial accumulator folds from the first element and
throws on an empty array (modelled as `none`). -/
def sumAll : List ℚ → Option ℚ
  | [] => none
  | v :: vs => some (vs.foldl (fun a b => a + b) v)

/-- The values pushed into `balance$` after each emission of the combined
stream, given the current pair of latest values. -/
def balanceStream (st : ℚ × ℚ) : List CapacityEvent → List (Option ℚ)
  | [] => []
  | e :: es =>
    let st2 := applyEvent st e
    sumAll [st2.1, st2.2] :: balanceStream st2 es

/-- All values pushed into `balance$`: the immediate emission of
`combineLatest` of the two `BehaviorSubject`s, then one emission per source
emission. -/
def balanceEmissions (o0 r0 : ℚ) (events : List CapacityEvent) : List (Option ℚ) :=
  sumAll [o0, r0] :: balanceStream (o0, r0) events

/-! ### Settlers, `getNativeMaxInFlight`, `connectUplink` -/

/-- The settlement-engine types configurable in this repository. -/
inductive SettlementEngineType where
  | lnd
  | xrpPaychan
  deriving DecidableEq

/-- Asset metadata of a settler (`SettlementEngine`): code and scale. -/
structure SettlerInfo where
  assetCode : String
  assetScale : Nat
  deriving DecidableEq

/-- Result of the `ilp-protocol-ildcp` asset-details handshake
(`fetchAssetDetails`). -/
structure AssetDetails where
  assetCode : String
  assetScale : Nat
  clientAddress : String
  deriving DecidableEq

/-- The global context (`State`): the USD-denominated max-in-flight
ceiling, and — abstracting the settler registry and the external
`convert`/rate backend — for each settlement type its settler metadata and
the conversion of a USD amount into that settler's base units at the
current rate. -/
structure State where
  maxInFlightUsd : ℚ
  settlers : SettlementEngineType → SettlerInfo
  convertUsdToBaseUnit : SettlementEngineType → ℚ → ℚ

/-- `BigNumber.dp(0, BigNumber.ROUND_DOWN)`: round to 0 decimal places
towards zero. -/
def dpRoundDown (q : ℚ) : ℚ :=
  if 0 ≤ q then (⌊q⌋ : ℚ) else (⌈q⌉ : ℚ)

/-- `getNativeMaxInFlight`: convert the global USD ceiling to the
settlement asset's base unit and round to an integer with
`dp(0, ROUND_DOWN)`. -/
def getNativeMaxInFlight (state : State) (settlerType : SettlementEngineType) : ℚ :=
  dpRoundDown (state.convertUsdToBaseUnit settlerType state.maxInFlightUsd)

/-- The configuration handed to the `PluginWrapper` constructor by
`connectUplink` (the wrapper itself is an external collaborator). -/
structure WrapperConfig where
  maxBalance : ℚ
  maxPacketAmount : ℚ
  assetCode : String
  assetScale : Nat

/-- `verifyUpstreamAssetDetails`: compare the handshake's asset details
with the local settler's; on mismatch disconnect the transport and throw,
otherwise return the resolved client address. -/
def verifyUpstreamAssetDetails (settler : SettlerInfo) (details : AssetDetails) :
    List Action × Except String String :=
  let incompatiblePeer :=
    details.assetCode != settler.assetCode || details.assetScale != settler.assetScale
  if incompatiblePeer then
    ([.pluginDisconnect],
     .error "Upstream connector is using a different asset or configuration")
  else
    ([], .ok details.clientAddress)

/-- The `ReadyUplink` state assembled by `connectUplink` that later
operations read (handler slots, resolved address, `maxInFlight`, and the
configuration given to the wrapper). -/
structure ReadyUplink where
  clientAddress : String
  maxInFlight : ℚ
  wrapper : WrapperConfig
  handlers : Handlers

/-- Environment fixing the external outcomes seen by one `connectUplink`
call: the transport connect result, the handshake response, and the stream
server start result. -/
structure ConnectEnv where
  connectResult : Except String Unit
  handshake : AssetDetails
  serverStart : Except String Unit

/-- `connectUplink`: resolve the settler, connect the transport (failure
fatal), verify asset details (mismatch disconnects and is fatal), derive
`balance$`, compute `maxInFlight` once and build the wrapper with
`maxBalance = maxPacketAmount = maxInFlight`, install the router with both
handler slots at their defaults, start the stream server (failure fatal,
transport left connected), and return the composed `ReadyUplink`. -/
def connectUplink (state : State) (settlerType : SettlementEngineType)
    (env : ConnectEnv) : List Action × Except String ReadyUplink :=
  let settler := state.settlers settlerType
  match env.connectResult with
  | .error e => ([.pluginConnect], .error e)
  | .ok _ =>
    let verified := verifyUpstreamAssetDetails settler env.handshake
    match verified.2 with
    | .error e => (Action.pluginConnect :: verified.1, .error e)
    | .ok clientAddress =>
      let maxInFlight := getNativeMaxInFlight state settlerType
      let wrapper : WrapperConfig :=
        { maxBalance := maxInFlight
          maxPacketAmount := maxInFlight
          assetCode := settler.assetCode
          assetScale := settler.assetScale }
      let handlers : Handlers :=
        { streamServerHandler := defaultDataHandler
          streamClientHandler := defaultIlpPrepareHandler }
      let trace := [Action.pluginConnect, Action.registerDataHandler, Action.startServer]
      match env.serverStart with
      | .error e => (trace, .error e)
      | .ok _ =>
        (trace,
         .ok { clientAddress := clientAddress
               maxInFlight := maxInFlight
               wrapper := wrapper
               handlers := handlers })

/-! ### Teardown (`disconnect`) -/

/-- Environment fixing the external outcomes seen by one `disconnect`
call: the stream server stop result and the transport disconnect result. -/
structure TeardownEnv where
  stopResult : Except String Unit
  disconnectResult : Except String Unit

/-- `disconnect`: stop the stream server, catching and logging a failure,
then disconnect the transport and return its result. -/
def uplinkDisconnect (env : TeardownEnv) : List Action × Except String Unit :=
  let stopTrace :=
    match env.stopResult with
    | .ok _ => [Action.stopServer]
    | .error _ => [Action.stopServer, Action.logError]
  (stopTrace ++ [Action.pluginDisconnect], env.disconnectResult)

/-! ### Predicates on action traces -/

/-- True exactly on a settlement action carrying a strictly positive amount
(a `sendMoney` invocation with a positive value, or the resulting
transfer). -/
def positiveSettlementCall : Action → Bool
  | .sendMoneyCall q => decide (0 < q)
  | .settlementTransfer q => decide (0 < q)
  | _ => false

/-- True exactly on a performed settlement transfer. -/
def isSettlementTransfer : Action → Bool
  | .settlementTransfer _ => true
  | _ => false

/-! ## Theorems

First some helper lemmas about the JS string primitives, then one theorem
per specification claim. -/

/-- Reflexivity of the boolean prefix test on character lists. -/
theorem isPrefixOf_self (l : List Char) : l.isPrefixOf l = true := by
  induction l with
  | nil => rfl
  | cons c rest ih => simp [List.isPrefixOf, ih]

/-- JS `s.replace(s, '') = ''`: removing the first occurrence of the whole
string empties it. -/
theorem replaceFirstAux_self (l : List Char) : replaceFirstAux l l = [] := by
  cases l with
  | nil => rfl
  | cons c rest =>
    simp [replaceFirstAux, isPrefixOf_self, List.drop_length]

/-- A destination equal to the client address itself carries no connection
tag. -/
theorem hasConnectionTag_self (a : String) : hasConnectionTag a a = false := by
  simp [hasConnectionTag, strippedSegments, replaceFirstAux_self, splitOnChar]

/-- JS `s.replace(pat, '')` is the identity when `pat` does not occur in
`s`. -/
theorem replaceFirstAux_of_not_contains (pat l : List Char)
    (h : containsSubstring pat l = false) : replaceFirstAux pat l = l := by
  induction l with
  | nil => rfl
  | cons c rest ih =>
    rw [containsSubstring] at h
    rcases Bool.or_eq_false_iff.mp h with ⟨h1, h2⟩
    simp [replaceFirstAux, h1, ih h2]

/-- JS `split` always yields at least one segment. -/
theorem splitOnChar_ne_nil (sep : Char) (l : List Char) : splitOnChar sep l ≠ [] := by
  induction l with
  | nil => simp [splitOnChar]
  | cons c rest ih =>
    rw [splitOnChar]
    by_cases hc : c = sep
    · simp [hc]
    · simp only [if_neg hc]
      cases hr : splitOnChar sep rest with
      | nil => exact absurd hr ih
      | cons seg segs => simp

/-- `sumAll` on a two-element array is the sum of the two entries. -/
theorem sumAll_pair (a b : ℚ) : sumAll [a, b] = some (a + b) := rfl

/-- The `i`-th value pushed into `balance$` by the combined stream is
`sumAll` of the pair of latest source values after the first `i + 1`
source emissions. -/
theorem balanceStream_getElem (events : List CapacityEvent) (st : ℚ × ℚ) (i : ℕ)
    (hi : i < events.length) :
    (balanceStream st events)[i]? =
      some (sumAll [((events.take (i + 1)).foldl applyEvent st).1,
        ((events.take (i + 1)).foldl applyEvent st).2]) := by
  induction events generalizing st i with
  | nil => simp at hi
  | cons e es ih =>
    cases i with
    | zero => simp [balanceStream]
    | succ j =>
      have hj : j < es.length := by simpa using hi
      simp [balanceStream, ih (applyEvent st e) j hj]

/-- Claim C1: for every `ReadyUplink` produced by `connectUplink`, after
every emission of either `outgoingCapacity$` or `totalReceived$`, the value
emitted by `balance$` equals the latest emitted `outgoingCapacity` value
plus the latest emitted `totalReceived` value. -/
theorem balance_eq_latest_sum (o0 r0 : ℚ) (events : List CapacityEvent) (i : ℕ)
    (hi : i ≤ events.length) :
    (balanceEmissions o0 r0 events)[i]? =
      some (some ((latestPair o0 r0 (events.take i)).1
        + (latestPair o0 r0 (events.take i)).2)) := by
  cases i with
  | zero => simp [balanceEmissions, latestPair, sumAll_pair]
  | succ j =>
    have hj : j < events.length := hi
    rw [balanceEmissions, List.getElem?_cons_succ,
      balanceStream_getElem events (o0, r0) j hj, latestPair, sumAll_pair]

/-- Witness for C1, on Scenario A: `outgoingCapacity = 10`,
`totalReceived = 5`, then an `outgoingCapacity` update to `7`; `balance$`
emits `15` and then `12`. -/
theorem balance_eq_latest_sum_witness :
    (1 ≤ ([CapacityEvent.outgoingCapacity 7] : List CapacityEvent).length
      ∧ (balanceEmissions 10 5 [CapacityEvent.outgoingCapacity 7])[1]? =
          some (some ((latestPair 10 5 (([CapacityEvent.outgoingCapacity 7]).take 1)).1
            + (latestPair 10 5 (([CapacityEvent.outgoingCapacity 7]).take 1)).2)))
    ∧ balanceEmissions 10 5 [CapacityEvent.outgoingCapacity 7] = [some 15, some 12] :=
  ⟨⟨by decide, balance_eq_latest_sum 10 5 [CapacityEvent.outgoingCapacity 7] 1 (by decide)⟩,
   by norm_num [balanceEmissions, balanceStream, sumAll, applyEvent]⟩

/-- Claim C5: a non-empty inbound payload that parses as a Prepare is
routed by destination. If the destination is exactly the uplink's resolved
client address, the parsed Prepare goes to the client handler and the
handler's Reply is serialized before being returned; if at least one
non-empty address segment remains after stripping the client address, the
raw payload bytes go verbatim to the server handler and its raw reply
bytes are returned unchanged. -/
theorem setupHandlers_routing (clientAddress : String) (sH : DataHandler)
    (cH : IlpPrepareHandler) (d : IlpBytes) (p : IlpPrepare)
    (hparse : deserializeIlpPrepare d = .ok p) :
    (p.destination = clientAddress →
      routerDataHandler clientAddress sH cH (some d) = .ok (serializeIlpReply (cH p)))
    ∧ ((strippedSegments clientAddress p.destination).any (fun seg => !seg.isEmpty) = true →
      routerDataHandler clientAddress sH cH (some d) = .ok (sH d)) := by
  constructor
  · intro hdest
    simp [routerDataHandler, hparse, hdest, hasConnectionTag_self]
  · intro htag
    simp [routerDataHandler, hparse, hasConnectionTag, htag]

/-- Witness for C5, on Scenario C: own address `g.kava.abc123`; destination
`g.kava.abc123` goes to the client handler, destination
`g.kava.abc123.~n9f` goes to the server handler. -/
theorem setupHandlers_routing_witness :
    (routerDataHandler "g.kava.abc123" id defaultIlpPrepareHandler
        (some (.prepareBytes ⟨"g.kava.abc123", 10, [], 0, []⟩))
      = .ok (serializeIlpReply (defaultIlpPrepareHandler ⟨"g.kava.abc123", 10, [], 0, []⟩)))
    ∧ (routerDataHandler "g.kava.abc123" id defaultIlpPrepareHandler
        (some (.prepareBytes ⟨"g.kava.abc123.~n9f", 10, [], 0, []⟩))
      = .ok (id (IlpBytes.prepareBytes ⟨"g.kava.abc123.~n9f", 10, [], 0, []⟩))) :=
  ⟨(setupHandlers_routing "g.kava.abc123" id defaultIlpPrepareHandler
      (.prepareBytes ⟨"g.kava.abc123", 10, [], 0, []⟩)
      ⟨"g.kava.abc123", 10, [], 0, []⟩ rfl).1 rfl,
   (setupHandlers_routing "g.kava.abc123" id defaultIlpPrepareHandler
      (.prepareBytes ⟨"g.kava.abc123.~n9f", 10, [], 0, []⟩)
      ⟨"g.kava.abc123.~n9f", 10, [], 0, []⟩ rfl).2 (by decide)⟩

/-- Claim C10: a non-empty inbound payload whose parsed Prepare destination
is a valid address not containing the uplink's client address as a
substring is forwarded raw to the server handler: stripping the client
address leaves every original segment non-empty. -/
theorem router_foreign_address (clientAddress : String) (sH : DataHandler)
    (cH : IlpPrepareHandler) (d : IlpBytes) (p : IlpPrepare)
    (hparse : deserializeIlpPrepare d = .ok p)
    (hforeign : containsSubstring clientAddress.data p.destination.data = false)
    (hvalid : (splitOnChar '.' p.destination.data).all (fun seg => !seg.isEmpty) = true) :
    strippedSegments clientAddress p.destination = splitOnChar '.' p.destination.data
    ∧ routerDataHandler clientAddress sH cH (some d) = .ok (sH d) := by
  have hstrip : strippedSegments clientAddress p.destination
      = splitOnChar '.' p.destination.data := by
    simp [strippedSegments, replaceFirstAux_of_not_contains _ _ hforeign]
  refine ⟨hstrip, ?_⟩
  have htag : hasConnectionTag clientAddress p.destination = true := by
    rw [hasConnectionTag, hstrip]
    cases hs : splitOnChar '.' p.destination.data with
    | nil => exact absurd hs (splitOnChar_ne_nil _ _)
    | cons seg segs =>
      rw [hs] at hvalid
      simp only [List.all_cons, Bool.and_eq_true] at hvalid
      simp [List.any_cons, hvalid.1]
  simp [routerDataHandler, hparse, htag]

/-- Witness for C10: own address `g.kava.abc123`, foreign destination
`g.other.xyz`: the raw payload goes to the server handler. -/
theorem router_foreign_address_witness :
    strippedSegments "g.kava.abc123" "g.other.xyz" = splitOnChar '.' "g.other.xyz".data
    ∧ routerDataHandler "g.kava.abc123" id defaultIlpPrepareHandler
        (some (.prepareBytes ⟨"g.other.xyz", 7, [], 0, []⟩))
      = .ok (id (IlpBytes.prepareBytes ⟨"g.other.xyz", 7, [], 0, []⟩)) :=
  router_foreign_address "g.kava.abc123" id defaultIlpPrepareHandler
    (.prepareBytes ⟨"g.other.xyz", 7, [], 0, []⟩) ⟨"g.other.xyz", 7, [], 0, []⟩ rfl
    (by decide) (by decide)

/-- Claim C8: after `deregisterPacketHandler`, an inbound packet addressed
to exactly the uplink's own address is handled by the explicit default
rejecting handler, never by any handler registered before the
deregistration. -/
theorem deregister_routes_to_default (h0 : Handlers) (handler : IlpPrepareHandler)
    (clientAddress : String) (d : IlpBytes) (p : IlpPrepare)
    (hparse : deserializeIlpPrepare d = .ok p)
    (hdest : p.destination = clientAddress) :
    dispatch clientAddress (deregisterPacketHandler (registerPacketHandler handler h0))
        (some d)
      = .ok (serializeIlpReply (defaultIlpPrepareHandler p)) := by
  simp [dispatch, deregisterPacketHandler, registerPacketHandler, routerDataHandler,
    hparse, hdest, hasConnectionTag_self]

/-- Witness for C8: a previously registered fulfilling handler is not
consulted after deregistration; the default rejecting handler answers. -/
theorem deregister_routes_to_default_witness :
    dispatch "g.kava.abc123"
        (deregisterPacketHandler
          (registerPacketHandler (fun _ => .fulfill [1] [2])
            ⟨id, fun _ => .fulfill [3] [4]⟩))
        (some (.prepareBytes ⟨"g.kava.abc123", 10, [], 0, []⟩))
      = .ok (serializeIlpReply (defaultIlpPrepareHandler ⟨"g.kava.abc123", 10, [], 0, []⟩)) :=
  deregister_routes_to_default ⟨id, fun _ => .fulfill [3] [4]⟩ (fun _ => .fulfill [1] [2])
    "g.kava.abc123" (.prepareBytes ⟨"g.kava.abc123", 10, [], 0, []⟩)
    ⟨"g.kava.abc123", 10, [], 0, []⟩ rfl rfl

/-- Claim C2, counterexample: with `payableBalance = 200 ≥ prepare.amount
= 100`, `sendPacket` DOES invoke `sendMoney` with the strictly positive
value `100`, refuting the claim as stated. -/
theorem sendPacket_positive_settlement_counterexample :
    ((100 : Nat) : ℚ) ≤ (200 : ℚ)
    ∧ (sendPacket ⟨200, fun b => .ok b, .ok ()⟩ ⟨"g.kava.dest", 100, [], 0, []⟩).1.any
        positiveSettlementCall = true := by
  constructor
  · norm_num
  · norm_num [sendPacket, sendMoney, positiveSettlementCall]

/-- Claim C2, amended: for every call to `sendPacket`, if the wrapper's
current payable balance is less than or equal to `prepare.amount`, then
`sendPacket` does not trigger a settlement transfer of a positive amount
(`sendMoney` is not invoked with a strictly positive value). -/
theorem sendPacket_no_positive_settlement (env : SendEnv) (prepare : IlpPrepare)
    (h : env.payableBalance ≤ (prepare.amount : ℚ)) :
    (sendPacket env prepare).1.any positiveSettlementCall = false := by
  have harg : env.payableBalance - (prepare.amount : ℚ) ≤ 0 := sub_nonpos.mpr h
  simp [sendPacket, sendMoney, positiveSettlementCall, not_lt.mpr harg]
  exact fun x hlt _ => absurd hlt (not_lt.mpr h)

/-- Witness for amended C2: `payableBalance = 30 ≤ 100 = prepare.amount`
and no positive settlement action appears in the trace. -/
theorem sendPacket_no_positive_settlement_witness :
    (30 : ℚ) ≤ ((100 : Nat) : ℚ)
    ∧ (sendPacket ⟨30, fun b => .ok b, .ok ()⟩ ⟨"g.kava.dest", 100, [], 0, []⟩).1.any
        positiveSettlementCall = false :=
  ⟨by norm_num,
   sendPacket_no_positive_settlement ⟨30, fun b => .ok b, .ok ()⟩
     ⟨"g.kava.dest", 100, [], 0, []⟩ (by norm_num)⟩

/-- Claim C3: `sendPacket` requests a settlement of exactly
`payableBalance − prepare.amount` (read at the start of the call); when
that value is ≤ 0 the settlement is a no-op, and the Prepare is serialized
and transmitted regardless, the result being the transmission pipeline's
outcome. -/
theorem sendPacket_prefund_formula (env : SendEnv) (prepare : IlpPrepare)
    (hle : env.payableBalance - (prepare.amount : ℚ) ≤ 0) :
    (sendPacket env prepare).1.head? =
      some (.sendMoneyCall (env.payableBalance - (prepare.amount : ℚ)))
    ∧ (sendPacket env prepare).1.any isSettlementTransfer = false
    ∧ Action.sendData (serializeIlpPrepare prepare) ∈ (sendPacket env prepare).1
    ∧ (sendPacket env prepare).2 =
        (env.sendDataResult (serializeIlpPrepare prepare)).bind deserializeIlpReply := by
  refine ⟨rfl, ?_, ?_, rfl⟩
  · simp [sendPacket, sendMoney, isSettlementTransfer]
    exact fun x hlt _ => absurd hlt (not_lt.mpr (sub_nonpos.mp hle))
  · simp [sendPacket]

/-- Witness for C3, on Scenario D: `prepare.amount = 100`,
`payableBalance = 30`: the requested amount is `−70`, no transfer is
performed, and the packet is still sent. -/
theorem sendPacket_prefund_formula_witness :
    (30 : ℚ) - ((100 : Nat) : ℚ) ≤ 0
    ∧ ((sendPacket ⟨30, fun b => .ok b, .ok ()⟩ ⟨"g.kava.dest", 100, [], 0, []⟩).1.head? =
        some (.sendMoneyCall ((30 : ℚ) - ((100 : Nat) : ℚ)))
      ∧ (sendPacket ⟨30, fun b => .ok b, .ok ()⟩
          ⟨"g.kava.dest", 100, [], 0, []⟩).1.any isSettlementTransfer = false
      ∧ Action.sendData (serializeIlpPrepare ⟨"g.kava.dest", 100, [], 0, []⟩) ∈
          (sendPacket ⟨30, fun b => .ok b, .ok ()⟩ ⟨"g.kava.dest", 100, [], 0, []⟩).1
      ∧ (sendPacket ⟨30, fun b => .ok b, .ok ()⟩ ⟨"g.kava.dest", 100, [], 0, []⟩).2 =
          (Except.ok (serializeIlpPrepare ⟨"g.kava.dest", 100, [], 0, []⟩)).bind
            deserializeIlpReply) :=
  ⟨by norm_num,
   sendPacket_prefund_formula ⟨30, fun b => .ok b, .ok ()⟩
     ⟨"g.kava.dest", 100, [], 0, []⟩ (by norm_num)⟩

/-- Claim C7: a failure of the settlement push is logged and otherwise
ignored: the result of `sendPacket` is the same as with a succeeding
settlement push and is exactly the outcome of serializing, transmitting
and deserializing — it rejects only on transmission failure. -/
theorem sendPacket_error_only_transmission (env : SendEnv) (prepare : IlpPrepare)
    (e : String) (_hfail : env.sendMoneyResult = .error e) :
    (sendPacket env prepare).2 =
      (sendPacket { env with sendMoneyResult := .ok () } prepare).2
    ∧ (sendPacket env prepare).2 =
        (env.sendDataResult (serializeIlpPrepare prepare)).bind deserializeIlpReply :=
  ⟨rfl, rfl⟩

/-- Witness for C7: with a failing settlement push and a succeeding
transmission, the result equals the succeeding-settlement result and the
transmission pipeline's outcome. -/
theorem sendPacket_error_only_transmission_witness :
    (SendEnv.mk 30 (fun _ => .ok (.replyBytes (.fulfill [] []))) (.error "fail")).sendMoneyResult
      = .error "fail"
    ∧ ((sendPacket ⟨30, fun _ => .ok (.replyBytes (.fulfill [] [])), .error "fail"⟩
          ⟨"g.kava.dest", 100, [], 0, []⟩).2 =
        (sendPacket ⟨30, fun _ => .ok (.replyBytes (.fulfill [] [])), .ok ()⟩
          ⟨"g.kava.dest", 100, [], 0, []⟩).2
      ∧ (sendPacket ⟨30, fun _ => .ok (.replyBytes (.fulfill [] [])), .error "fail"⟩
          ⟨"g.kava.dest", 100, [], 0, []⟩).2 =
          (Except.ok (IlpBytes.replyBytes (.fulfill [] []))).bind deserializeIlpReply) :=
  ⟨rfl,
   sendPacket_error_only_transmission
     ⟨30, fun _ => .ok (.replyBytes (.fulfill [] [])), .error "fail"⟩
     ⟨"g.kava.dest", 100, [], 0, []⟩ "fail" rfl⟩

/-- Claim C4: when the transport connects but the peer's asset-details
handshake reports an `assetCode` or `assetScale` differing from the local
settler's, `connectUplink` disconnects the transport exactly once and
rejects with the incompatible-peer error; no `ReadyUplink` is produced. -/
theorem connectUplink_incompatible_peer (state : State)
    (settlerType : SettlementEngineType) (env : ConnectEnv)
    (hconnect : env.connectResult = .ok ())
    (hmismatch : (env.handshake.assetCode != (state.settlers settlerType).assetCode
        || env.handshake.assetScale != (state.settlers settlerType).assetScale) = true) :
    (connectUplink state settlerType env).1.count .pluginDisconnect = 1
    ∧ (connectUplink state settlerType env).2 =
        .error "Upstream connector is using a different asset or configuration" := by
  constructor <;>
    simp [connectUplink, hconnect, verifyUpstreamAssetDetails, hmismatch, List.count]

/-- Witness for C4, on Scenario B: local settler `XRP`, handshake reports
`ETH`: the transport is disconnected exactly once and the connect call is
rejected. -/
theorem connectUplink_incompatible_peer_witness :
    ((ConnectEnv.mk (.ok ()) ⟨"ETH", 9, "g.kava.abc123"⟩ (.ok ())).connectResult = .ok ()
      ∧ ((ConnectEnv.mk (.ok ()) ⟨"ETH", 9, "g.kava.abc123"⟩ (.ok ())).handshake.assetCode
            != ((State.mk 10 (fun _ => ⟨"XRP", 6⟩) (fun _ q => q)).settlers .lnd).assetCode
          || (ConnectEnv.mk (.ok ()) ⟨"ETH", 9, "g.kava.abc123"⟩
              (.ok ())).handshake.assetScale
            != ((State.mk 10 (fun _ => ⟨"XRP", 6⟩)
              (fun _ q => q)).settlers .lnd).assetScale) = true)
    ∧ ((connectUplink (State.mk 10 (fun _ => ⟨"XRP", 6⟩) (fun _ q => q)) .lnd
          (ConnectEnv.mk (.ok ()) ⟨"ETH", 9, "g.kava.abc123"⟩ (.ok ()))).1.count
            .pluginDisconnect = 1
      ∧ (connectUplink (State.mk 10 (fun _ => ⟨"XRP", 6⟩) (fun _ q => q)) .lnd
          (ConnectEnv.mk (.ok ()) ⟨"ETH", 9, "g.kava.abc123"⟩ (.ok ()))).2 =
          .error "Upstream connector is using a different asset or configuration") :=
  ⟨⟨rfl, by decide⟩,
   connectUplink_incompatible_peer (State.mk 10 (fun _ => ⟨"XRP", 6⟩) (fun _ q => q)) .lnd
     (ConnectEnv.mk (.ok ()) ⟨"ETH", 9, "g.kava.abc123"⟩ (.ok ())) rfl (by decide)⟩

/-- Claim C6: on a successful connect, `maxInFlight` is the USD ceiling
converted to the settlement asset's base unit, rounded down to an integer
(no fractional base units), and this one value is passed to the Accounting
Wrapper as both its `maxBalance` and its `maxPacketAmount`. -/
theorem connectUplink_maxInFlight (state : State) (settlerType : SettlementEngineType)
    (env : ConnectEnv) (hconnect : env.connectResult = .ok ())
    (hcompat : (env.handshake.assetCode != (state.settlers settlerType).assetCode
        || env.handshake.assetScale != (state.settlers settlerType).assetScale) = false)
    (hserver : env.serverStart = .ok ())
    (hpos : 0 ≤ state.convertUsdToBaseUnit settlerType state.maxInFlightUsd) :
    (connectUplink state settlerType env).2 =
      .ok { clientAddress := env.handshake.clientAddress
            maxInFlight := getNativeMaxInFlight state settlerType
            wrapper := { maxBalance := getNativeMaxInFlight state settlerType
                         maxPacketAmount := getNativeMaxInFlight state settlerType
                         assetCode := (state.settlers settlerType).assetCode
                         assetScale := (state.settlers settlerType).assetScale }
            handlers := { streamServerHandler := defaultDataHandler
                          streamClientHandler := defaultIlpPrepareHandler } }
    ∧ getNativeMaxInFlight state settlerType =
        ((⌊state.convertUsdToBaseUnit settlerType state.maxInFlightUsd⌋ : ℤ) : ℚ)
    ∧ (getNativeMaxInFlight state settlerType).den = 1 := by
  refine ⟨?_, ?_, ?_⟩
  · simp [connectUplink, hconnect, verifyUpstreamAssetDetails, hcompat, hserver]
  · simp [getNativeMaxInFlight, dpRoundDown, if_pos hpos]
  · simp [getNativeMaxInFlight, dpRoundDown, if_pos hpos]

/-- Witness for C6: ceiling 10 USD converted at rate `q ↦ q / 4` gives
`2.5` base units, rounded down to the integer `2`, used for both wrapper
ceilings. -/
theorem connectUplink_maxInFlight_witness :
    ((ConnectEnv.mk (.ok ()) ⟨"XRP", 6, "g.kava.abc123"⟩ (.ok ())).connectResult = .ok ()
      ∧ ((ConnectEnv.mk (.ok ()) ⟨"XRP", 6, "g.kava.abc123"⟩ (.ok ())).handshake.assetCode
            != ((State.mk 10 (fun _ => ⟨"XRP", 6⟩) (fun _ q => q / 4)).settlers
              .lnd).assetCode
          || (ConnectEnv.mk (.ok ()) ⟨"XRP", 6, "g.kava.abc123"⟩
              (.ok ())).handshake.assetScale
            != ((State.mk 10 (fun _ => ⟨"XRP", 6⟩) (fun _ q => q / 4)).settlers
              .lnd).assetScale) = false
      ∧ (ConnectEnv.mk (.ok ()) ⟨"XRP", 6, "g.kava.abc123"⟩ (.ok ())).serverStart = .ok ()
      ∧ 0 ≤ (State.mk 10 (fun _ => ⟨"XRP", 6⟩)
          (fun _ q => q / 4)).convertUsdToBaseUnit .lnd
            (State.mk 10 (fun _ => ⟨"XRP", 6⟩) (fun _ q => q / 4)).maxInFlightUsd)
    ∧ ((connectUplink (State.mk 10 (fun _ => ⟨"XRP", 6⟩) (fun _ q => q / 4)) .lnd
          (ConnectEnv.mk (.ok ()) ⟨"XRP", 6, "g.kava.abc123"⟩ (.ok ()))).2 =
        .ok { clientAddress := "g.kava.abc123"
              maxInFlight :=
                getNativeMaxInFlight (State.mk 10 (fun _ => ⟨"XRP", 6⟩)
                  (fun _ q => q / 4)) .lnd
              wrapper := { maxBalance :=
                             getNativeMaxInFlight (State.mk 10 (fun _ => ⟨"XRP", 6⟩)
                               (fun _ q => q / 4)) .lnd
                           maxPacketAmount :=
                             getNativeMaxInFlight (State.mk 10 (fun _ => ⟨"XRP", 6⟩)
                               (fun _ q => q / 4)) .lnd
                           assetCode := "XRP"
                           assetScale := 6 }
              handlers := { streamServerHandler := defaultDataHandler
                            streamClientHandler := defaultIlpPrepareHandler } }
      ∧ getNativeMaxInFlight (State.mk 10 (fun _ => ⟨"XRP", 6⟩) (fun _ q => q / 4)) .lnd =
          ((⌊(State.mk 10 (fun _ => ⟨"XRP", 6⟩)
            (fun _ q => q / 4)).convertUsdToBaseUnit .lnd 10⌋ : ℤ) : ℚ)
      ∧ (getNativeMaxInFlight (State.mk 10 (fun _ => ⟨"XRP", 6⟩)
          (fun _ q => q / 4)) .lnd).den = 1)
    ∧ getNativeMaxInFlight (State.mk 10 (fun _ => ⟨"XRP", 6⟩) (fun _ q => q / 4)) .lnd = 2 :=
  ⟨⟨rfl, by decide, rfl, by norm_num⟩,
   connectUplink_maxInFlight (State.mk 10 (fun _ => ⟨"XRP", 6⟩) (fun _ q => q / 4)) .lnd
     (ConnectEnv.mk (.ok ()) ⟨"XRP", 6, "g.kava.abc123"⟩ (.ok ())) rfl (by decide) rfl
     (by norm_num),
   by
     have h52 : (⌊(5 : ℚ) / 2⌋ : ℤ) = 2 := by
       rw [Int.floor_eq_iff]
       norm_num
     norm_num [getNativeMaxInFlight, dpRoundDown, h52]⟩

/-- Claim C9: `disconnect` stops the embedded stream server before
disconnecting the transport; a stop failure is logged and does not prevent
the transport disconnect, while the transport disconnect's outcome is
returned to the caller. -/
theorem disconnect_order_and_propagation (env : TeardownEnv) :
    (uplinkDisconnect env).1.head? = some Action.stopServer
    ∧ (uplinkDisconnect env).1.getLast? = some Action.pluginDisconnect
    ∧ Action.pluginDisconnect ∈ (uplinkDisconnect env).1
    ∧ (uplinkDisconnect env).2 = env.disconnectResult := by
  cases h : env.stopResult <;> simp [uplinkDisconnect, h]

end SwitchApi
